import Mathlib

/-!
# FinCore — verification of the spec against `src/app.py`

Shallow embedding of the non-UI core of the FinCore dashboard
(`src/app.py`): the Ratio Engine (`calculate_financial_ratios`,
`calculate_advanced_metrics`), the Store Adapter (SQLite table and MongoDB
collection, write and read paths), the Ingestion Pipeline
(`fetch_to_sqlite`, `fetch_to_mongodb`) and the ad-hoc SQL query surface.

Monetary amounts are modelled as exact rationals (`ℚ`).  Where the claims
depend on IEEE-754 behaviour at a zero denominator (pandas element-wise
division yields `inf`/`-inf`/`nan`, never an exception), values are wrapped
in the type `FVal` which carries those non-finite sentinels explicitly;
finite arithmetic is idealised as exact.  Python's `round` and
numpy/pandas `.round` both round half to even, modelled by `rndHalfEven`.
-/

set_option autoImplicit false

namespace FinCore

/-! ## Rounding (Python `round` / numpy `.round`: half to even) -/

/-- Round a rational to the nearest integer, ties to even
(the behaviour of Python's `round` and numpy's `round`). -/
def rndHalfEven (q : ℚ) : ℤ :=
  let f : ℤ := ⌊q⌋
  let frac : ℚ := q - (f : ℚ)
  if frac < 1/2 then f
  else if 1/2 < frac then f + 1
  else if f % 2 = 0 then f else f + 1

/-- Round a rational to `n` decimal places, ties to even. -/
def roundTo (n : ℕ) (q : ℚ) : ℚ :=
  (rndHalfEven (q * (10 : ℚ) ^ n) : ℚ) / (10 : ℚ) ^ n

/-! ## Float values with IEEE non-finite sentinels

pandas element-wise division of float64 columns never raises: `x / 0` is
`inf` for `x > 0`, `-inf` for `x < 0`, and `nan` for `0 / 0`.  `nan` is the
only value pandas treats as null/NA; `inf` is *not* null. -/

/-- A float64 value: a finite (idealised exact) rational, or one of the
IEEE non-finite sentinels produced by division by zero. -/
inductive FVal where
  | num (q : ℚ)
  | inf
  | ninf
  | nan
  deriving DecidableEq, Repr

/-- Element-wise float division as performed by pandas on float64 columns:
exact on a nonzero denominator, and the IEEE zero-denominator results
otherwise (no exception is ever raised). -/
def fdiv (x y : ℚ) : FVal :=
  if y ≠ 0 then .num (x / y)
  else if 0 < x then .inf
  else if x < 0 then .ninf
  else .nan

/-- numpy `.round(n)` on a float column: rounds finite entries to `n`
decimal places (half to even) and leaves `inf`/`-inf`/`nan` unchanged. -/
def FVal.roundN (n : ℕ) : FVal → FVal
  | .num q => .num (roundTo n q)
  | v => v

/-- pandas nullness (`isna`): only `nan` is null; `inf` is not. -/
def FVal.isNull : FVal → Bool
  | .nan => true
  | _ => false

/-! ## Data model

`RRow` is the flat FinancialRecord row shape consumed by the Ratio Engine
(the columns of the SQLite table / the normalised MongoDB read). -/

/-- A flat financial record row (`ticker`, `year` and the five monetary
fields), as stored in the relational table. -/
structure RRow where
  ticker : String
  year : ℤ
  revenue : ℚ
  net_income : ℚ
  assets : ℚ
  liabilities : ℚ
  equity : ℚ
  deriving DecidableEq, Repr

/-- A row augmented with the four derived ratio columns added by
`calculate_financial_ratios`. -/
structure ARow where
  ticker : String
  year : ℤ
  revenue : ℚ
  net_income : ℚ
  assets : ℚ
  liabilities : ℚ
  equity : ℚ
  ROE : FVal
  Debt_to_Equity : FVal
  Profit_Margin : FVal
  Asset_Turnover : FVal
  deriving DecidableEq, Repr

/-! ## Ratio Engine (`calculate_financial_ratios`, src/app.py lines 64–71)

The Python function copies the frame, then assigns four new columns, each
an element-wise column division followed by `.round(4)`.  We model the
column computations element-wise over the list of rows (pandas Series
arithmetic is index-aligned element-wise; here indices are positional). -/

/-- One column division of `calculate_financial_ratios`: the element-wise
quotient of two columns, rounded to 4 decimal places. -/
def ratioCol (num den : List ℚ) : List FVal :=
  (List.zipWith fdiv num den).map (FVal.roundN 4)

/-- Reassemble rows from the base frame and the four computed ratio
columns (positional zip, as in the pandas column assignments). -/
def zipRatioCols : List RRow → List FVal → List FVal → List FVal → List FVal → List ARow
  | r :: rs, a :: as_, b :: bs, c :: cs, d :: ds =>
      { ticker := r.ticker, year := r.year, revenue := r.revenue,
        net_income := r.net_income, assets := r.assets,
        liabilities := r.liabilities, equity := r.equity,
        ROE := a, Debt_to_Equity := b, Profit_Margin := c,
        Asset_Turnover := d } :: zipRatioCols rs as_ bs cs ds
  | _, _, _, _, _ => []

/-- `calculate_financial_ratios` (src/app.py lines 64–71): copies the
frame and adds `ROE`, `Debt_to_Equity`, `Profit_Margin`, `Asset_Turnover`
as rounded element-wise column quotients.  (The `if col in df.columns`
guards are always true here: the row type carries all base columns.) -/
def calculate_financial_ratios (df : List RRow) : List ARow :=
  zipRatioCols df
    (ratioCol (df.map RRow.net_income) (df.map RRow.equity))
    (ratioCol (df.map RRow.liabilities) (df.map RRow.equity))
    (ratioCol (df.map RRow.net_income) (df.map RRow.revenue))
    (ratioCol (df.map RRow.revenue) (df.map RRow.assets))

/-- The row-level denotation of `calculate_financial_ratios`. -/
def augmentRow (r : RRow) : ARow :=
  { ticker := r.ticker, year := r.year, revenue := r.revenue,
    net_income := r.net_income, assets := r.assets,
    liabilities := r.liabilities, equity := r.equity,
    ROE := (fdiv r.net_income r.equity).roundN 4,
    Debt_to_Equity := (fdiv r.liabilities r.equity).roundN 4,
    Profit_Margin := (fdiv r.net_income r.revenue).roundN 4,
    Asset_Turnover := (fdiv r.revenue r.assets).roundN 4 }

theorem zipRatioCols_nil (a b c d : List FVal) :
    zipRatioCols [] a b c d = [] := by
  cases a <;> cases b <;> cases c <;> cases d <;> rfl

/-- The columnar computation agrees row-wise with `augmentRow`. -/
theorem calculate_financial_ratios_eq_map (df : List RRow) :
    calculate_financial_ratios df = df.map augmentRow := by
  induction df with
  | nil => rfl
  | cons r rs ih =>
      have h : calculate_financial_ratios (r :: rs)
          = augmentRow r :: calculate_financial_ratios rs := by
        simp [calculate_financial_ratios, ratioCol, zipRatioCols, augmentRow]
      rw [h, ih, List.map_cons]

/-! ## Altman Z-Score (`calculate_advanced_metrics`, src/app.py lines 52–62)

Scalar Python code on one row inside `try/except`.  For finite numeric
inputs no exception can occur (numpy scalar division by zero warns and
yields `inf` rather than raising, and the guarded branch divides only by
nonzero values), so the `except: return None` branch is unreachable and
`None` arises exactly from the explicit guard. -/

/-- `calculate_advanced_metrics` (src/app.py lines 52–62). -/
def calculate_advanced_metrics (row : RRow) : Option ℚ :=
  if row.assets = 0 ∨ row.liabilities = 0 then none
  else
    let liquidity := (row.assets - row.liabilities) / row.assets
    let profitability := if row.assets ≠ 0 then row.net_income / row.assets else 0
    let z_score := (12/10 : ℚ) * liquidity + (33/10 : ℚ) * profitability
      + (6/10 : ℚ) * (row.equity / row.liabilities)
    some (roundTo 2 z_score)

/-- The Z-Score formula exactly as §4.1 of the spec states it. -/
def altmanSpecFormula (row : RRow) : ℚ :=
  (12/10 : ℚ) * ((row.assets - row.liabilities) / row.assets)
    + (33/10 : ℚ) * (row.net_income / row.assets)
    + (6/10 : ℚ) * (row.equity / row.liabilities)

/-! ## Ingestion Pipeline and Store Adapter

The external filings provider is abstracted as a function from a ticker
to an outcome: a successful financial summary, "no 10-K filing"
(`filings.empty`), or an exception while fetching/parsing (any error the
per-item `try/except` would catch). -/

/-- The financial summary extracted from a filing
(`fin.get_revenue()` … `fin.get_total_liabilities()`). -/
structure Financials where
  revenue : ℚ
  net_income : ℚ
  total_assets : ℚ
  total_equity : ℚ
  total_liabilities : ℚ
  deriving DecidableEq, Repr

/-- Outcome of looking up one ticker at the external provider. -/
inductive FetchOutcome where
  | ok (fin : Financials)
  | noFiling
  | exn
  deriving DecidableEq, Repr

/-- User-visible messages emitted by the pipeline
(`st.warning` / `st.error` / `st.success`). -/
inductive Msg where
  | warning (ticker : String)
  | error (ticker : String)
  | successSaved (n : ℕ)
  | successSynced (n : ℕ)
  deriving DecidableEq, Repr

/-- One relational record as assembled in the `fetch_to_sqlite` loop
(src/app.py lines 98–109): the seven FinancialRecord fields plus the
`audit_pass` validation bit `1 if abs(assets - (liabilities + equity)) < 1e6
else 0`. -/
structure SRecord where
  ticker : String
  year : ℤ
  revenue : ℚ
  net_income : ℚ
  assets : ℚ
  equity : ℚ
  liabilities : ℚ
  audit_pass : ℤ
  deriving DecidableEq, Repr

/-- Build the per-ticker dict of `fetch_to_sqlite` (src/app.py 98–109). -/
def mkSRecord (t : String) (y : ℤ) (fin : Financials) : SRecord :=
  { ticker := t, year := y, revenue := fin.revenue,
    net_income := fin.net_income, assets := fin.total_assets,
    equity := fin.total_equity, liabilities := fin.total_liabilities,
    audit_pass :=
      if |fin.total_assets - (fin.total_liabilities + fin.total_equity)| < 1000000
      then 1 else 0 }

/-- The SQLite `financials` table: its column list (schema) and rows. -/
structure SqliteTable where
  cols : List String
  rows : List SRecord
  deriving DecidableEq, Repr

/-- Columns of the table created by `init_sqlite_db`
(src/app.py lines 33–50) — note: no `audit_pass` column. -/
def initTableCols : List String :=
  ["ticker", "year", "revenue", "net_income", "assets", "liabilities", "equity"]

/-- `init_sqlite_db` (src/app.py 33–50): `CREATE TABLE IF NOT EXISTS` with
the seven columns and `PRIMARY KEY (ticker, year)`, starting empty. -/
def init_sqlite_db : SqliteTable := { cols := initTableCols, rows := [] }

/-- Column order of the DataFrame built from the ingestion results
(dict insertion order of src/app.py 98–109): includes `audit_pass`. -/
def resultsDfCols : List String :=
  ["ticker", "year", "revenue", "net_income", "assets", "equity",
   "liabilities", "audit_pass"]

/-- `(ticker, year)` primary-key conflict of a candidate row against
existing rows. -/
def pkConflict (rows : List SRecord) (r : SRecord) : Bool :=
  rows.any fun s => s.ticker == r.ticker && s.year == r.year

/-- Insert rows one at a time, honouring the `(ticker, year)` primary key:
a duplicate key raises an integrity error (sqlite `UNIQUE constraint`). -/
def insertRows : List SRecord → SqliteTable → Except String SqliteTable
  | [], tbl => .ok tbl
  | r :: rs, tbl =>
      if pkConflict tbl.rows r then .error "UNIQUE constraint failed"
      else insertRows rs { tbl with rows := tbl.rows ++ [r] }

/-- `df.to_sql("financials", conn, if_exists="append", ...)`
(src/app.py line 120): pandas issues an INSERT naming every DataFrame
column; sqlite raises an operational error if the table lacks one of
them, and the insert must also satisfy the table's primary key.  On any
error nothing is committed (the exception propagates and the connection
is closed without commit). -/
def to_sql_append (dfCols : List String) (newRows : List SRecord)
    (tbl : SqliteTable) : Except String SqliteTable :=
  if dfCols.all (fun c => tbl.cols.contains c) then insertRows newRows tbl
  else .error "table financials has no column named audit_pass"

/-- The per-ticker loop body of `fetch_to_sqlite` (the `try/except` around
src/app.py lines 86–116): a successful fetch appends a record to
`results`, an empty filing list emits a warning and continues, and any
exception emits a per-item error and continues. -/
def sqliteStep (provider : String → FetchOutcome) (year : ℤ)
    (acc : List SRecord × List Msg) (t : String) : List SRecord × List Msg :=
  match provider t with
  | .ok fin => (acc.1 ++ [mkSRecord t year fin], acc.2)
  | .noFiling => (acc.1, acc.2 ++ [Msg.warning t])
  | .exn => (acc.1, acc.2 ++ [Msg.error t])

/-- `fetch_to_sqlite` (src/app.py lines 77–125): run the per-ticker loop,
then, if `results` is nonempty, write the whole batch with one
`df.to_sql(..., if_exists="append")` — *outside* the `try/except`, so an
error there propagates to the caller (modelled by `Except.error`). -/
def fetch_to_sqlite (provider : String → FetchOutcome) (year : ℤ)
    (tickers : List String) (tbl : SqliteTable) :
    List Msg × Except String SqliteTable :=
  let res := tickers.foldl (sqliteStep provider year) ([], [])
  if res.1.isEmpty then (res.2, .ok tbl)
  else
    match to_sql_append resultsDfCols res.1 tbl with
    | .ok tbl2 => (res.2 ++ [Msg.successSaved res.1.length], .ok tbl2)
    | .error e => (res.2, .error e)

/-- A MongoDB document as written by `fetch_to_mongodb`
(src/app.py lines 157–176): ticker, the nested `financials` fields —
note: *no equity field* — and the `audit_pass` bit `1 if a > 0 else 0`.
(`timestamp`, `report_type` and `metadata` carry no claim-relevant data;
`report_type` is kept as the constant it is.) -/
structure MDoc where
  ticker : String
  report_type : String
  revenue : ℚ
  net_income : ℚ
  total_assets : ℚ
  total_liabilities : ℚ
  audit_pass : ℤ
  deriving DecidableEq, Repr

/-- Build the document of src/app.py lines 157–176 from a fetched
financial summary. -/
def mkMDoc (t : String) (fin : Financials) : MDoc :=
  { ticker := t, report_type := "10-K", revenue := fin.revenue,
    net_income := fin.net_income, total_assets := fin.total_assets,
    total_liabilities := fin.total_liabilities,
    audit_pass := if 0 < fin.total_assets then 1 else 0 }

/-- `collection.update_one({"ticker": t}, {"$set": document}, upsert=True)`
(src/app.py line 178): replace the first document whose ticker matches,
or append the document if none matches. -/
def update_one_upsert : List MDoc → String → MDoc → List MDoc
  | [], _, d => [d]
  | x :: xs, t, d =>
      if x.ticker == t then d :: xs else x :: update_one_upsert xs t d

/-- The per-ticker loop body of `fetch_to_mongodb` (the `try/except`
around src/app.py lines 141–183): success upserts the document, a missing
filing warns and continues, an exception reports a per-item error and
continues. -/
def mongoStep (provider : String → FetchOutcome)
    (acc : List MDoc × List Msg) (t : String) : List MDoc × List Msg :=
  match provider t with
  | .ok fin => (update_one_upsert acc.1 t (mkMDoc t fin), acc.2)
  | .noFiling => (acc.1, acc.2 ++ [Msg.warning t])
  | .exn => (acc.1, acc.2 ++ [Msg.error t])

/-- `fetch_to_mongodb` (src/app.py lines 127–187): the per-ticker loop,
with the upsert inside the loop (and inside the `try`); the final success
message reports `len(tickers)` — the number *requested*, not the number
persisted. -/
def fetch_to_mongodb (provider : String → FetchOutcome)
    (tickers : List String) (coll : List MDoc) : List Msg × List MDoc :=
  let res := tickers.foldl (mongoStep provider) (coll, [])
  (res.2 ++ [Msg.successSynced tickers.length], res.1)

/-! ## Read paths (Store Adapter `readAll`) -/

/-- The flat row shape produced by the MongoDB read path
(src/app.py lines 236–243). -/
structure FlatRow where
  ticker : String
  revenue : ℚ
  net_income : ℚ
  assets : ℚ
  liabilities : ℚ
  equity : ℚ
  deriving DecidableEq, Repr

/-- SQLite read path (src/app.py lines 213–224):
`SELECT * FROM financials` returns the table's rows unchanged. -/
def sqliteReadAll (tbl : SqliteTable) : List SRecord := tbl.rows

/-- Columns of the SQLite read (`SELECT *` returns the table's schema). -/
def sqliteReadCols (tbl : SqliteTable) : List String := tbl.cols

/-- MongoDB read path (src/app.py lines 225–243): flatten each document's
nested `financials.*` fields and synthesize
`equity = total_assets - total_liabilities` (equity is not stored). -/
def mongoReadAll (coll : List MDoc) : List FlatRow :=
  coll.map fun d =>
    { ticker := d.ticker, revenue := d.revenue, net_income := d.net_income,
      assets := d.total_assets, liabilities := d.total_liabilities,
      equity := d.total_assets - d.total_liabilities }

/-- Columns of the normalised MongoDB read, in the construction order of
the DataFrame at src/app.py lines 236–243 — note: no `year` column. -/
def mongoReadCols : List String :=
  ["ticker", "revenue", "net_income", "assets", "liabilities", "equity"]

/-- Writing one FinancialRecord to the document backend at the Store
Adapter level: the document shape holds only the four `financials.*`
monetary fields, so the record's `equity` is dropped (src/app.py
157–178). -/
def mongoWriteRecord (coll : List MDoc) (r : SRecord) : List MDoc :=
  update_one_upsert coll r.ticker
    { ticker := r.ticker, report_type := "10-K", revenue := r.revenue,
      net_income := r.net_income, total_assets := r.assets,
      total_liabilities := r.liabilities,
      audit_pass := if 0 < r.assets then 1 else 0 }

/-! ## Ad-hoc SQL query surface (src/app.py lines 353–362)

The app opens a fresh sqlite3 connection, runs `pd.read_sql(query, conn)`
inside `try/except`, and closes the connection.  sqlite3's legacy
transaction handling opens its implicit transaction *only* for
data-modifying statements (INSERT/UPDATE/DELETE/REPLACE); since the app
never calls `commit()`, `Connection.close()` rolls those back.  A DDL
statement such as `DROP TABLE financials`, however, runs in autocommit
mode — no transaction is opened for it on the fresh connection — so it
takes effect immediately and permanently.  pandas' `read_sql` raises
when the cursor has no result description (any non-SELECT, after the
statement has already executed), and a syntax error raises from
`execute` itself; both land in the app's `except` branch as an
"Invalid SQL Syntax" message. -/

/-- A query string submitted to the SQL Query Interface, by the statement
kind it parses to: a SELECT, row-level DML (DELETE/INSERT), DDL
(`DROP TABLE financials`), or a syntactically invalid string. -/
inductive SqlStmt where
  | selectAll
  | deleteAll
  | insertRow (r : SRecord)
  | dropTable
  | invalid
  deriving DecidableEq, Repr

/-- Statement classification: only SELECT produces a result set. -/
def SqlStmt.isSelect : SqlStmt → Bool
  | .selectAll => true
  | _ => false

/-- The statements for which sqlite3's legacy transaction handling opens
the implicit transaction (INSERT/UPDATE/DELETE/REPLACE): DML only, not
DDL. -/
def SqlStmt.isDml : SqlStmt → Bool
  | .deleteAll => true
  | .insertRow _ => true
  | _ => false

/-- The stored database: `some` the `financials` table, or `none` once
the table has been dropped. -/
abbrev SqliteDb := Option SqliteTable

/-- An open sqlite3 connection: the committed (autocommitted) database
state plus the table contents of the implicit open DML transaction, if
any. -/
structure Conn where
  committed : SqliteDb
  pending : Option SqliteTable
  deriving DecidableEq, Repr

/-- `sqlite3.connect(...)`: no transaction open. -/
def connect (db : SqliteDb) : Conn := { committed := db, pending := none }

/-- The table a statement on this connection observes: the open DML
transaction's contents if one exists, else the committed table. -/
def curView (c : Conn) : SqliteDb :=
  match c.pending with
  | some t => some t
  | none => c.committed

/-- Result of `cursor.execute`. -/
inductive ExecResult where
  | resultSet (rs : List SRecord)
  | noResultSet
  | sqlError
  deriving DecidableEq, Repr

/-- `cursor.execute(query)`: SELECT yields rows and leaves the
transaction state alone; DML (DELETE/INSERT) opens the implicit
transaction and modifies it, yielding no result description; DDL
(DROP TABLE) runs in autocommit mode, so it changes the committed state
immediately (the query surface executes a single statement on a fresh
connection, so no transaction is open when it runs); a syntactically
invalid statement — or one against a missing table — raises. -/
def executeStmt (c : Conn) (q : SqlStmt) : Conn × ExecResult :=
  match q with
  | .selectAll =>
      match curView c with
      | some t => (c, .resultSet t.rows)
      | none => (c, .sqlError)
  | .deleteAll =>
      match curView c with
      | some t => ({ c with pending := some { t with rows := [] } }, .noResultSet)
      | none => (c, .sqlError)
  | .insertRow r =>
      match curView c with
      | some t =>
          ({ c with pending := some { t with rows := t.rows ++ [r] } }, .noResultSet)
      | none => (c, .sqlError)
  | .dropTable =>
      match c.committed with
      | some _ => ({ c with committed := none }, .noResultSet)
      | none => (c, .sqlError)
  | .invalid => (c, .sqlError)

/-- `pd.read_sql(query, conn)` on a raw sqlite3 connection: execute, then
read `cursor.description`; a `None` description (non-SELECT) raises a
TypeError *after* the statement has executed, and an execute error is
rolled back by pandas and re-raised. -/
def read_sql (c : Conn) (q : SqlStmt) : Conn × Except Unit (List SRecord) :=
  match executeStmt c q with
  | (c2, .resultSet rs) => (c2, .ok rs)
  | (c2, .noResultSet) => (c2, .error ())
  | (c2, .sqlError) => ({ committed := c2.committed, pending := none }, .error ())

/-- `Connection.close()` without a preceding `commit()`: an open DML
transaction is rolled back, so only the committed state survives —
including any DDL effect that was autocommitted when it executed. -/
def closeConn (c : Conn) : SqliteDb := c.committed

/-- The SQL Query Interface block (src/app.py 353–362): connect, run
`pd.read_sql` in `try/except` (success shows the rows, failure shows an
"Invalid SQL Syntax" error), then close the connection.  Returns the
database as later readers see it, and what was reported to the user. -/
def run_sql_query_interface (db : SqliteDb) (q : SqlStmt) :
    SqliteDb × Except Unit (List SRecord) :=
  let c := connect db
  let res := read_sql c q
  (closeConn res.1, res.2)

/-- The row count later readers observe (0 once the table is gone). -/
def storedRowCount : SqliteDb → ℕ
  | some t => t.rows.length
  | none => 0

/-! ## Heap model for `calculate_financial_ratios`'s copy discipline

`calculate_financial_ratios` receives a reference to the caller's
DataFrame, rebinds `df` to `df.copy()`, and performs its four column
assignments on the copy (src/app.py lines 64–71).  To state the frame
property ("the caller's frame is not mutated") we make references and
mutation explicit: a heap of DataFrame cells, where a cell holds either a
raw frame or one augmented with the ratio columns. -/

/-- A DataFrame cell: the base frame, or the frame after the four ratio
columns have been assigned. -/
inductive PDF where
  | raw (rows : List RRow)
  | aug (rows : List ARow)
  deriving DecidableEq, Repr

/-- The base columns of a cell (augmentation keeps them). -/
def PDF.baseRows : PDF → List RRow
  | .raw rows => rows
  | .aug rows => rows.map fun r =>
      { ticker := r.ticker, year := r.year, revenue := r.revenue,
        net_income := r.net_income, assets := r.assets,
        liabilities := r.liabilities, equity := r.equity }

/-- `calculate_financial_ratios` with the reference/mutation structure of
the source made explicit: `df = df.copy()` allocates a fresh cell holding
the same rows, and the four column assignments update that fresh cell in
place.  Returns the new heap and a reference to the result frame. -/
def calculate_financial_ratios_heap (h : List PDF) (i : ℕ) : List PDF × ℕ :=
  let j := h.length
  let h1 := h ++ [h.getD i (.raw [])]
  let h2 := h1.set j (.aug (calculate_financial_ratios ((h1.getD j (.raw [])).baseRows)))
  (h2, j)

/-! ## Loop characterisations -/

/-- The records a run of the ingestion loop accumulates: one per
successfully fetched ticker, in order. -/
def okRecords (provider : String → FetchOutcome) (year : ℤ)
    (tickers : List String) : List SRecord :=
  tickers.filterMap fun t =>
    match provider t with
    | .ok fin => some (mkSRecord t year fin)
    | _ => none

/-- The per-item warnings (missing filing) and errors (exceptions) a run
of either ingestion loop reports, in order. -/
def failMsgs (provider : String → FetchOutcome)
    (tickers : List String) : List Msg :=
  tickers.filterMap fun t =>
    match provider t with
    | .ok _ => none
    | .noFiling => some (Msg.warning t)
    | .exn => some (Msg.error t)

/-- The collection state after the MongoDB ingestion loop: one upsert per
successfully fetched ticker, in order. -/
def mongoApply (provider : String → FetchOutcome) :
    List String → List MDoc → List MDoc
  | [], coll => coll
  | t :: ts, coll =>
      mongoApply provider ts
        (match provider t with
         | .ok fin => update_one_upsert coll t (mkMDoc t fin)
         | _ => coll)

theorem foldl_sqliteStep (provider : String → FetchOutcome) (year : ℤ) :
    ∀ (ts : List String) (rs : List SRecord) (ms : List Msg),
      ts.foldl (sqliteStep provider year) (rs, ms)
        = (rs ++ okRecords provider year ts, ms ++ failMsgs provider ts) := by
  intro ts
  induction ts with
  | nil => intro rs ms; simp [okRecords, failMsgs]
  | cons t ts ih =>
      intro rs ms
      cases hp : provider t <;>
        simp [sqliteStep, hp, okRecords, failMsgs, List.filterMap_cons, ih]

theorem foldl_mongoStep (provider : String → FetchOutcome) :
    ∀ (ts : List String) (coll : List MDoc) (ms : List Msg),
      ts.foldl (mongoStep provider) (coll, ms)
        = (mongoApply provider ts coll, ms ++ failMsgs provider ts) := by
  intro ts
  induction ts with
  | nil => intro coll ms; simp [mongoApply, failMsgs]
  | cons t ts ih =>
      intro coll ms
      cases hp : provider t <;>
        simp [mongoStep, hp, mongoApply, failMsgs, List.filterMap_cons, ih]

theorem insertRows_ok : ∀ (rs : List SRecord) (tbl tbl2 : SqliteTable),
    insertRows rs tbl = .ok tbl2 →
    tbl2.cols = tbl.cols ∧ tbl2.rows.length = tbl.rows.length + rs.length := by
  intro rs
  induction rs with
  | nil =>
      intro tbl tbl2 h
      simp only [insertRows] at h
      cases h
      exact ⟨rfl, rfl⟩
  | cons r rs ih =>
      intro tbl tbl2 h
      simp only [insertRows] at h
      split at h
      · cases h
      · have := ih _ _ h
        simp only [List.length_append, List.length_cons, List.length_nil] at this ⊢
        exact ⟨this.1, by omega⟩

/-! ## Uniqueness invariants -/

/-- `(ticker, year)` is a key: no two rows agree on both. -/
def uniqueKeys (rows : List SRecord) : Prop :=
  rows.Pairwise fun a b => ¬(a.ticker = b.ticker ∧ a.year = b.year)

/-- `ticker` is a key of the document collection. -/
def uniqueTickers (coll : List MDoc) : Prop :=
  coll.Pairwise fun a b => a.ticker ≠ b.ticker

theorem insertRows_preserves_uniqueKeys :
    ∀ (rs : List SRecord) (tbl tbl2 : SqliteTable),
      insertRows rs tbl = .ok tbl2 → uniqueKeys tbl.rows → uniqueKeys tbl2.rows := by
  intro rs
  induction rs with
  | nil =>
      intro tbl tbl2 h hu
      simp only [insertRows] at h
      cases h
      exact hu
  | cons r rs ih =>
      intro tbl tbl2 h hu
      simp only [insertRows] at h
      split at h
      · cases h
      · refine ih _ _ h ?_
        rename_i hnc
        simp only [pkConflict, List.any_eq_true, Bool.and_eq_true, beq_iff_eq,
          not_exists, not_and] at hnc
        push_neg at hnc
        refine List.pairwise_append.2 ⟨hu, List.pairwise_singleton _ _, ?_⟩
        intro a ha b hb
        simp only [List.mem_singleton] at hb
        subst hb
        intro hab
        exact absurd hab.2 (hnc a ha hab.1)

/-- Membership after an upsert: every document was already there or is
the new one. -/
theorem mem_update_one_upsert :
    ∀ (coll : List MDoc) (t : String) (d x : MDoc),
      x ∈ update_one_upsert coll t d → x ∈ coll ∨ x = d := by
  intro coll t d
  induction coll with
  | nil =>
      intro x hx
      simp only [update_one_upsert, List.mem_singleton] at hx
      exact Or.inr hx
  | cons y ys ih =>
      intro x hx
      simp only [update_one_upsert] at hx
      split at hx
      · rcases List.mem_cons.1 hx with h | h
        · exact Or.inr h
        · exact Or.inl (List.mem_cons_of_mem _ h)
      · rcases List.mem_cons.1 hx with h | h
        · exact Or.inl (h ▸ List.mem_cons_self _ _)
        · rcases ih x h with h2 | h2
          · exact Or.inl (List.mem_cons_of_mem _ h2)
          · exact Or.inr h2

theorem update_one_upsert_preserves_uniqueTickers :
    ∀ (coll : List MDoc) (t : String) (d : MDoc), d.ticker = t →
      uniqueTickers coll → uniqueTickers (update_one_upsert coll t d) := by
  intro coll t d hd
  induction coll with
  | nil =>
      intro _
      exact List.pairwise_singleton _ _
  | cons y ys ih =>
      intro hu
      rcases List.pairwise_cons.1 hu with ⟨hy, hys⟩
      simp only [update_one_upsert]
      split
      · rename_i heq
        refine List.pairwise_cons.2 ⟨?_, hys⟩
        intro b hb
        have : y.ticker = t := by simpa using heq
        rw [hd, ← this]
        exact hy b hb
      · rename_i hne
        refine List.pairwise_cons.2 ⟨?_, ih hys⟩
        intro b hb
        rcases mem_update_one_upsert ys t d b hb with h | h
        · exact hy b h
        · subst h
          rw [hd]
          simpa using hne

/-- After upserting key `t` into a collection with unique tickers, the
documents with ticker `t` are exactly the new one. -/
theorem update_one_upsert_filter :
    ∀ (coll : List MDoc) (t : String) (d : MDoc), d.ticker = t →
      uniqueTickers coll →
      (update_one_upsert coll t d).filter (fun x => x.ticker == t) = [d] := by
  intro coll t d hd
  induction coll with
  | nil =>
      intro _
      simp [update_one_upsert, List.filter, hd]
  | cons y ys ih =>
      intro hu
      rcases List.pairwise_cons.1 hu with ⟨hy, hys⟩
      simp only [update_one_upsert]
      split
      · rename_i heq
        have hyt : y.ticker = t := by simpa using heq
        have : ys.filter (fun x => x.ticker == t) = [] := by
          apply List.filter_eq_nil_iff.2
          intro b hb
          have := hy b hb
          rw [hyt] at this
          simpa using (Ne.symm this)
        simp [List.filter, hd, this]
      · rename_i hne
        have : (y.ticker == t) = false := by simpa using hne
        simp [List.filter, this, ih hys]

/-- Upserting an already-present ticker does not grow the collection. -/
theorem update_one_upsert_length_of_mem :
    ∀ (coll : List MDoc) (t : String) (d : MDoc),
      coll.any (fun x => x.ticker == t) = true →
      (update_one_upsert coll t d).length = coll.length := by
  intro coll t d
  induction coll with
  | nil => intro h; simp at h
  | cons y ys ih =>
      intro h
      simp only [update_one_upsert]
      split
      · simp
      · rename_i hne
        simp only [List.any_cons, Bool.or_eq_true] at h
        rcases h with h | h
        · exact absurd h (by simpa using hne)
        · simp [ih h]

/-! ## Concrete fixtures (the worked example of spec §8) -/

/-- The filing of spec §8: revenue 100, net income 10, assets 500,
liabilities 200, equity 300. -/
def finEx : Financials :=
  { revenue := 100, net_income := 10, total_assets := 500,
    total_equity := 300, total_liabilities := 200 }

/-- A provider with one valid identifier and one that raises. -/
def providerC1 (t : String) : FetchOutcome :=
  if t == "AAPL" then .ok finEx else .exn

/-! ## C1 -/

/-- **C1** (code bug, SQLite path).  The claim says ingestion never
raises to its caller and a one-valid-one-invalid list persists exactly
one record.  On the SQLite backend the batch write
`df.to_sql("financials", ..., if_exists="append")` sits *outside* the
per-item `try/except` and the DataFrame carries an `audit_pass` column
that the table created by `init_sqlite_db` does not have, so the write
raises an operational error and persists nothing: the run below reports
the per-item error for the invalid ticker but then propagates an
exception, with zero records persisted.  The MongoDB path at the same
input behaves as the claim demands (one document persisted, one per-item
error, no exception). -/
theorem c1_sqlite_ingest_raises :
    fetch_to_sqlite providerC1 2025 ["AAPL", "BADX"] init_sqlite_db
      = ([Msg.error "BADX"],
         .error "table financials has no column named audit_pass")
    ∧ fetch_to_mongodb providerC1 ["AAPL", "BADX"] []
      = ([Msg.error "BADX", Msg.successSynced 2], [mkMDoc "AAPL" finEx]) := by
  exact ⟨rfl, rfl⟩

/-! ## C2 -/

/-- A record whose equity does not exactly satisfy the accounting
identity (`assets 500`, `liabilities 200`, `equity 299`); the mismatch of
1 is far inside the 1,000,000 audit tolerance, so this record is a
perfectly normal ingestible one. -/
def rC2 : SRecord :=
  { ticker := "ACME", year := 2025, revenue := 100, net_income := 10,
    assets := 500, equity := 299, liabilities := 200, audit_pass := 1 }

/-- **C2** (counterexample).  Writing `rC2` (equity 299) to the document
backend and reading it back yields equity 300 = assets − liabilities:
the reconstructed equity does not numerically match the equity that was
written. -/
theorem c2_counterexample :
    (mongoReadAll (mongoWriteRecord [] rC2)).map FlatRow.equity = [300]
    ∧ rC2.equity = 299 ∧ (300 : ℚ) ≠ 299 := by
  refine ⟨?_, rfl, by norm_num⟩
  norm_num [rC2, mongoWriteRecord, update_one_upsert, mongoReadAll]

/-- **C2** (amended).  Round-trip through the relational backend returns
the stored row unchanged in all fields; round-trip through the document
backend returns the five stored monetary fields unchanged and a
reconstructed equity `assets − liabilities`, which equals the written
equity exactly when the accounting identity
`assets = liabilities + equity` holds exactly. -/
theorem c2_roundtrip_amended (tbl : SqliteTable) (r : SRecord)
    (hcols : resultsDfCols.all (fun c => tbl.cols.contains c) = true)
    (hpk : pkConflict tbl.rows r = false)
    (hid : r.assets = r.liabilities + r.equity) :
    to_sql_append resultsDfCols [r] tbl
      = .ok { cols := tbl.cols, rows := tbl.rows ++ [r] }
    ∧ sqliteReadAll { cols := tbl.cols, rows := tbl.rows ++ [r] }
      = tbl.rows ++ [r]
    ∧ mongoReadAll (mongoWriteRecord [] r)
      = [{ ticker := r.ticker, revenue := r.revenue,
           net_income := r.net_income, assets := r.assets,
           liabilities := r.liabilities, equity := r.equity }] := by
  have heq : r.assets - r.liabilities = r.equity := by rw [hid]; ring
  refine ⟨?_, rfl, ?_⟩
  · have hc : ∀ x ∈ resultsDfCols, x ∈ tbl.cols := fun x hx => by
      simpa using List.all_eq_true.mp hcols x hx
    simp [to_sql_append, insertRows, hpk]
    exact hc
  · simp [mongoWriteRecord, update_one_upsert, mongoReadAll, heq]

/-- A record that satisfies the accounting identity exactly. -/
def rEx : SRecord :=
  { ticker := "AAPL", year := 2025, revenue := 100, net_income := 10,
    assets := 500, equity := 300, liabilities := 200, audit_pass := 1 }

/-- A relational table whose schema carries all DataFrame columns
(including `audit_pass`), as `to_sql` itself would have created it. -/
def tblW : SqliteTable := { cols := resultsDfCols, rows := [] }

/-- Witness for the amended C2 at the concrete record `rEx` on the empty
stores: all hypotheses hold and both round-trips return the record. -/
theorem c2_roundtrip_amended_witness :
    (resultsDfCols.all (fun c => tblW.cols.contains c) = true
      ∧ pkConflict tblW.rows rEx = false
      ∧ rEx.assets = rEx.liabilities + rEx.equity)
    ∧ to_sql_append resultsDfCols [rEx] tblW
        = .ok { cols := tblW.cols, rows := tblW.rows ++ [rEx] }
    ∧ sqliteReadAll { cols := tblW.cols, rows := tblW.rows ++ [rEx] }
        = tblW.rows ++ [rEx]
    ∧ mongoReadAll (mongoWriteRecord [] rEx)
        = [{ ticker := rEx.ticker, revenue := rEx.revenue,
             net_income := rEx.net_income, assets := rEx.assets,
             liabilities := rEx.liabilities, equity := rEx.equity }] := by
  refine ⟨⟨by decide, by decide, by norm_num [rEx]⟩, ?_⟩
  exact c2_roundtrip_amended tblW rEx (by decide) (by decide) (by norm_num [rEx])

/-! ## C3 -/

/-- **C3**.  The relational store keys by `(ticker, year)`:
re-ingesting the same ticker under a new year appends a second row and
preserves key-uniqueness, while a record with an already-present
`(ticker, year)` is rejected by the primary key.  The document store
keys by `ticker` alone: an upsert overwrites the single existing
document for that ticker, the collection never holds two documents for
one ticker, and the collection does not grow when the ticker is already
present. -/
theorem c3_keying_asymmetry (tbl : SqliteTable) (r1 r2 : SRecord)
    (coll : List MDoc) (t : String) (d1 d2 : MDoc)
    (hcols : resultsDfCols.all (fun c => tbl.cols.contains c) = true)
    (h1 : r1 ∈ tbl.rows)
    (ht : r2.ticker = r1.ticker) (hy : r2.year ≠ r1.year)
    (hfresh : ∀ s ∈ tbl.rows, ¬(s.ticker = r2.ticker ∧ s.year = r2.year))
    (hd1 : d1.ticker = t) (hd2 : d2.ticker = t)
    (hu : uniqueTickers coll) (hmem : d1 ∈ coll) :
    to_sql_append resultsDfCols [r2] tbl
      = .ok { cols := tbl.cols, rows := tbl.rows ++ [r2] }
    ∧ r1 ∈ tbl.rows ++ [r2] ∧ r2 ∈ tbl.rows ++ [r2]
    ∧ (uniqueKeys tbl.rows → uniqueKeys (tbl.rows ++ [r2]))
    ∧ (∀ r3 : SRecord, r3.ticker = r1.ticker → r3.year = r1.year →
        to_sql_append resultsDfCols [r3] tbl
          = .error "UNIQUE constraint failed")
    ∧ (update_one_upsert coll t d2).filter (fun x => x.ticker == t) = [d2]
    ∧ uniqueTickers (update_one_upsert coll t d2)
    ∧ (update_one_upsert coll t d2).length = coll.length := by
  have hc : ∀ x ∈ resultsDfCols, x ∈ tbl.cols := fun x hx => by
    simpa using List.all_eq_true.mp hcols x hx
  have hpk2 : pkConflict tbl.rows r2 = false := by
    simp only [pkConflict, List.any_eq_false, Bool.and_eq_true, beq_iff_eq, not_and]
    intro s hs hst
    exact fun hsy => hfresh s hs ⟨hst, hsy⟩
  have hins : insertRows [r2] tbl = .ok { cols := tbl.cols, rows := tbl.rows ++ [r2] } := by
    simp [insertRows, hpk2]
  refine ⟨?_, ?_, ?_, ?_, ?_, ?_, ?_, ?_⟩
  · simp only [to_sql_append]
    rw [if_pos hcols]
    exact hins
  · exact List.mem_append_left _ h1
  · exact List.mem_append_right _ (List.mem_singleton_self _)
  · exact fun hk => insertRows_preserves_uniqueKeys [r2] tbl _ hins hk
  · intro r3 h3t h3y
    have hpk3 : pkConflict tbl.rows r3 = true := by
      simp only [pkConflict, List.any_eq_true, Bool.and_eq_true, beq_iff_eq]
      exact ⟨r1, h1, by rw [h3t], by rw [h3y]⟩
    simp only [to_sql_append]
    rw [if_pos hcols]
    simp [insertRows, hpk3]
  · exact update_one_upsert_filter coll t d2 hd2 hu
  · exact update_one_upsert_preserves_uniqueTickers coll t d2 hd2 hu
  · exact update_one_upsert_length_of_mem coll t d2
      (List.any_eq_true.2 ⟨d1, hmem, by simp [hd1]⟩)

/-- The relational table after a first ingestion of `rEx`
(ticker `AAPL`, year 2025), with the full DataFrame schema. -/
def tblC3 : SqliteTable := { cols := resultsDfCols, rows := [rEx] }

/-- The 2026 re-ingestion of the same ticker. -/
def rEx26 : SRecord := { rEx with year := 2026 }

/-- The documents of two successive fetches for ticker `AAPL`. -/
def dEx : MDoc := mkMDoc "AAPL" finEx

/-- A second fetch for the same ticker with different figures. -/
def dEx2 : MDoc :=
  mkMDoc "AAPL" { finEx with revenue := 120, total_assets := 600 }

/-- Witness for C3 at the concrete stores: the hypotheses hold and the
conclusion follows by applying the theorem. -/
theorem c3_keying_asymmetry_witness :
    (rEx ∈ tblC3.rows ∧ rEx26.ticker = rEx.ticker ∧ rEx26.year ≠ rEx.year
      ∧ dEx.ticker = "AAPL" ∧ dEx2.ticker = "AAPL"
      ∧ uniqueTickers [dEx] ∧ dEx ∈ [dEx])
    ∧ to_sql_append resultsDfCols [rEx26] tblC3
        = .ok { cols := tblC3.cols, rows := tblC3.rows ++ [rEx26] }
    ∧ rEx ∈ tblC3.rows ++ [rEx26] ∧ rEx26 ∈ tblC3.rows ++ [rEx26]
    ∧ (uniqueKeys tblC3.rows → uniqueKeys (tblC3.rows ++ [rEx26]))
    ∧ (∀ r3 : SRecord, r3.ticker = rEx.ticker → r3.year = rEx.year →
        to_sql_append resultsDfCols [r3] tblC3
          = .error "UNIQUE constraint failed")
    ∧ (update_one_upsert [dEx] "AAPL" dEx2).filter (fun x => x.ticker == "AAPL")
        = [dEx2]
    ∧ uniqueTickers (update_one_upsert [dEx] "AAPL" dEx2)
    ∧ (update_one_upsert [dEx] "AAPL" dEx2).length = ([dEx] : List MDoc).length := by
  refine ⟨⟨by decide, by decide, by decide, by decide, by decide,
    List.pairwise_singleton _ _, by decide⟩, ?_⟩
  exact c3_keying_asymmetry tblC3 rEx rEx26 [dEx] "AAPL" dEx dEx2
    (by decide) (by decide) (by decide) (by decide) (by decide)
    (by decide) (by decide) (List.pairwise_singleton _ _) (by decide)

/-! ## C4 -/

/-- **C4**.  `calculate_advanced_metrics` returns `None` exactly when
`assets == 0` or `liabilities == 0`, and otherwise the §4.1 formula
`1.2·((assets−liabilities)/assets) + 3.3·(net_income/assets)
+ 0.6·(equity/liabilities)` rounded to 2 decimal places. -/
theorem c4_altman_z_score (row : RRow) :
    calculate_advanced_metrics row
      = (if row.assets = 0 ∨ row.liabilities = 0 then none
         else some (roundTo 2 (altmanSpecFormula row)))
    ∧ (calculate_advanced_metrics row = none
        ↔ (row.assets = 0 ∨ row.liabilities = 0)) := by
  constructor
  · unfold calculate_advanced_metrics altmanSpecFormula
    split
    · rfl
    · rename_i h
      push_neg at h
      simp [h.1]
  · unfold calculate_advanced_metrics
    split
    · simp_all
    · simp_all

/-! ## C5 -/

/-- The ROE column as the amended claim describes it: the exact quotient
rounded to 4 decimal places on a nonzero equity; on `equity = 0` a
non-finite sentinel — `nan` (the only value pandas treats as null) when
`net_income = 0`, otherwise `±inf` (not null). -/
def roeSpecAmended (r : RRow) : FVal :=
  if r.equity ≠ 0 then .num (roundTo 4 (r.net_income / r.equity))
  else if r.net_income = 0 then .nan
  else if 0 < r.net_income then .inf
  else .ninf

/-- A row with positive net income and zero equity. -/
def rC5a : RRow :=
  { ticker := "ZERQ", year := 2025, revenue := 100, net_income := 1,
    assets := 500, liabilities := 200, equity := 0 }

/-- A row whose exact ROE (1/3) is not representable in 4 decimals. -/
def rC5b : RRow :=
  { ticker := "THRD", year := 2025, revenue := 100, net_income := 1,
    assets := 500, liabilities := 200, equity := 3 }

/-- **C5** (counterexample).  (a) On `equity = 0` with `net_income = 1`
the computed ROE is `inf`, which pandas does not treat as null — the
claim's "null when equity = 0" fails.  (b) With `net_income = 1`,
`equity = 3` the computed ROE is the 4-decimal rounding `0.3333`, not
the exact quotient `1/3` — the claim's "equals net_income/equity
exactly" fails. -/
theorem c5_counterexample :
    ((calculate_financial_ratios [rC5a]).map ARow.ROE = [FVal.inf]
      ∧ FVal.isNull FVal.inf = false)
    ∧ ((calculate_financial_ratios [rC5b]).map ARow.ROE
        = [FVal.num (3333/10000)]
      ∧ (3333/10000 : ℚ) ≠ 1/3) := by
  refine ⟨⟨?_, rfl⟩, ?_, by norm_num⟩
  · rw [calculate_financial_ratios_eq_map]
    norm_num [augmentRow, rC5a, fdiv, FVal.roundN]
  · rw [calculate_financial_ratios_eq_map]
    norm_num [augmentRow, rC5b, fdiv, FVal.roundN, roundTo, rndHalfEven]

/-- **C5** (amended).  The ROE column of `calculate_financial_ratios` is
computed row-by-row (one row's value depends only on that row, so a
zero denominator in one row cannot affect another and the batch never
aborts), and per row it equals the 4-decimal rounding of
`net_income/equity` when `equity ≠ 0`, while `equity = 0` yields the
non-finite sentinel `nan`/`inf`/`-inf` by the sign of `net_income` —
null (NaN) exactly when `net_income` is also 0. -/
theorem c5_roe_amended (df : List RRow) :
    (calculate_financial_ratios df).map ARow.ROE = df.map roeSpecAmended
    ∧ ∀ r : RRow,
        ((roeSpecAmended r).isNull = true ↔ (r.equity = 0 ∧ r.net_income = 0)) := by
  constructor
  · rw [calculate_financial_ratios_eq_map, List.map_map]
    apply List.map_congr_left
    intro r _
    show (augmentRow r).ROE = roeSpecAmended r
    unfold augmentRow roeSpecAmended fdiv FVal.roundN
    rcases eq_or_ne r.equity 0 with he | he
    · rcases lt_trichotomy r.net_income 0 with hn | hn | hn
      · simp [he, hn, not_lt_of_gt hn, ne_of_lt hn]
      · simp [he, hn]
      · simp [he, hn, not_lt_of_gt hn, ne_of_gt hn]
    · simp [he]
  · intro r
    unfold roeSpecAmended
    rcases eq_or_ne r.equity 0 with he | he
    · rcases eq_or_ne r.net_income 0 with hn | hn
      · simp [he, hn, FVal.isNull]
      · rcases lt_or_gt_of_ne hn with h | h
        · simp [he, hn, not_lt_of_gt h, FVal.isNull]
        · simp [he, hn, h, FVal.isNull]
    · simp [he, FVal.isNull]

/-! ## C6 -/

/-- **C6** (counterexample).  The two read paths do not produce the same
columns: the relational `SELECT *` on the table created by
`init_sqlite_db` exposes a `year` column, while the normalised MongoDB
frame
(src/app.py 236–243) has no `year` column at all, so the flat table
shape differs between backends. -/
theorem c6_counterexample :
    sqliteReadCols init_sqlite_db ≠ mongoReadCols
    ∧ "year" ∈ sqliteReadCols init_sqlite_db
    ∧ "year" ∉ mongoReadCols := by
  refine ⟨by decide, by decide, by decide⟩

/-- Projection of a relational row onto the six columns the MongoDB read
also produces. -/
def sharedProj (r : SRecord) : FlatRow :=
  { ticker := r.ticker, revenue := r.revenue, net_income := r.net_income,
    assets := r.assets, liabilities := r.liabilities, equity := r.equity }

/-- **C6** (amended).  The two read paths agree on the six shared columns
`ticker, revenue, net_income, assets, liabilities, equity` — dropping
`year` from the relational columns yields exactly the MongoDB columns in
order, the relational read returns stored rows unchanged, and a record
written to the document backend reads back equal in all six shared
columns provided its equity satisfies the accounting identity — but the
full shapes are not identical: the relational read alone carries
`year`. -/
theorem c6_shape_amended (tbl : SqliteTable) (r : SRecord)
    (hid : r.assets = r.liabilities + r.equity) :
    (sqliteReadCols init_sqlite_db).erase "year" = mongoReadCols
    ∧ sqliteReadAll tbl = tbl.rows
    ∧ mongoReadAll (mongoWriteRecord [] r) = [sharedProj r]
    ∧ (sharedProj r).ticker = r.ticker ∧ (sharedProj r).revenue = r.revenue
    ∧ (sharedProj r).net_income = r.net_income
    ∧ (sharedProj r).assets = r.assets
    ∧ (sharedProj r).liabilities = r.liabilities
    ∧ (sharedProj r).equity = r.equity := by
  have heq : r.assets - r.liabilities = r.equity := by rw [hid]; ring
  refine ⟨by decide, rfl, ?_, rfl, rfl, rfl, rfl, rfl, rfl⟩
  simp [mongoWriteRecord, update_one_upsert, mongoReadAll, sharedProj, heq]

/-- Witness for the amended C6 at the record `rEx`. -/
theorem c6_shape_amended_witness :
    (rEx.assets = rEx.liabilities + rEx.equity)
    ∧ (sqliteReadCols init_sqlite_db).erase "year" = mongoReadCols
    ∧ sqliteReadAll tblC3 = tblC3.rows
    ∧ mongoReadAll (mongoWriteRecord [] rEx) = [sharedProj rEx] := by
  have h := c6_shape_amended tblC3 rEx (by norm_num [rEx])
  exact ⟨by norm_num [rEx], h.1, h.2.1, h.2.2.1⟩

/-! ## C7 -/

/-- **C7**.  `audit_pass` is computed on the relational path as 1 exactly
when `|assets − (liabilities + equity)| < 1,000,000` and on the document
path as 1 exactly when `assets > 0` (and 0 otherwise in both cases). -/
theorem c7_audit_pass_rules (t : String) (y : ℤ) (fin : Financials) :
    ((mkSRecord t y fin).audit_pass = 1
      ↔ |fin.total_assets - (fin.total_liabilities + fin.total_equity)| < 1000000)
    ∧ ((mkSRecord t y fin).audit_pass = 0
      ↔ ¬ |fin.total_assets - (fin.total_liabilities + fin.total_equity)| < 1000000)
    ∧ ((mkMDoc t fin).audit_pass = 1 ↔ 0 < fin.total_assets)
    ∧ ((mkMDoc t fin).audit_pass = 0 ↔ ¬ 0 < fin.total_assets) := by
  unfold mkSRecord mkMDoc
  refine ⟨?_, ?_, ?_, ?_⟩ <;> · dsimp only; split <;> simp_all

/-! ## C8 -/

/-- **C8** (code bug).  The claim requires every non-SELECT statement to
be rejected outright or executed without altering the stored row count,
with no corruption of stored state.  DML does behave that way by
accident — `DELETE FROM financials` executes inside the never-committed
implicit transaction and is rolled back when the connection closes, and
an invalid query only raises — but sqlite3 opens that transaction *only*
for DML: the DDL statement `DROP TABLE financials` runs in autocommit
mode, commits immediately, and destroys the table and every stored row,
while the user is shown nothing but the "Invalid SQL Syntax" error
(pandas raises on the `None` cursor description after the statement has
executed) and `conn.close()` has nothing to roll back.  Evaluated on a
one-row store: the DROP leaves zero stored rows; the DELETE, the invalid
query and the SELECT leave the store intact. -/
theorem c8_ddl_corrupts_store :
    run_sql_query_interface (some tblC3) .dropTable = (none, .error ())
    ∧ storedRowCount (some tblC3) = 1
    ∧ storedRowCount (run_sql_query_interface (some tblC3) .dropTable).1 = 0
    ∧ SqlStmt.isSelect .dropTable = false
    ∧ SqlStmt.isDml .dropTable = false
    ∧ run_sql_query_interface (some tblC3) .deleteAll = (some tblC3, .error ())
    ∧ run_sql_query_interface (some tblC3) .invalid = (some tblC3, .error ())
    ∧ run_sql_query_interface (some tblC3) .selectAll
        = (some tblC3, .ok tblC3.rows) := by
  exact ⟨rfl, rfl, rfl, rfl, rfl, rfl, rfl, rfl⟩

/-! ## C9 -/

/-- A provider with one valid identifier (`NVDA`) and failures
elsewhere. -/
def providerC9 (t : String) : FetchOutcome :=
  if t == "NVDA" then .ok finEx else .exn

/-- **C9** (counterexample).  A MongoDB ingestion run over one valid and
one failing ticker persists exactly one document but reports
"Successfully synced 2 companies": the reported success count is
`len(tickers)`, not the number of records actually persisted. -/
theorem c9_counterexample :
    (fetch_to_mongodb providerC9 ["NVDA", "FAIL"] []).1
      = [Msg.error "FAIL", Msg.successSynced 2]
    ∧ (fetch_to_mongodb providerC9 ["NVDA", "FAIL"] []).2.length = 1
    ∧ (2 : ℕ) ≠ 1 := by
  refine ⟨rfl, rfl, by norm_num⟩

/-- **C9** (amended).  On the relational path, whenever the run returns
without raising, the table grows by exactly the number of successfully
fetched records and — if that number is nonzero — the reported messages
are the per-item warnings/errors followed by a success message carrying
exactly that count, so the reported succeeded count equals the number of
rows persisted.  On the document path, the final message always reports
the number of *requested* tickers, regardless of how many records were
persisted. -/
theorem c9_report_amended :
    (∀ (p : String → FetchOutcome) (y : ℤ) (ts : List String)
        (tbl tbl2 : SqliteTable) (msgs : List Msg),
      fetch_to_sqlite p y ts tbl = (msgs, .ok tbl2) →
      tbl2.rows.length = tbl.rows.length + (okRecords p y ts).length
      ∧ (okRecords p y ts ≠ [] →
          msgs = failMsgs p ts
            ++ [Msg.successSaved (okRecords p y ts).length]))
    ∧ (∀ (p : String → FetchOutcome) (ts : List String) (coll : List MDoc),
        (fetch_to_mongodb p ts coll).1
          = failMsgs p ts ++ [Msg.successSynced ts.length]) := by
  constructor
  · intro p y ts tbl tbl2 msgs h
    unfold fetch_to_sqlite at h
    rw [foldl_sqliteStep] at h
    simp only [List.nil_append] at h
    split at h
    · rename_i hemp
      have hok : okRecords p y ts = [] := List.isEmpty_iff.mp hemp
      injection h with hm hq
      injection hq with he
      rw [← he]
      simp [hok, hm]
    · rename_i hemp
      cases hw : to_sql_append resultsDfCols (okRecords p y ts) tbl with
      | ok tblNew =>
          rw [hw] at h
          injection h with hm hq
          injection hq with he
          have hins : insertRows (okRecords p y ts) tbl = .ok tblNew := by
            simp only [to_sql_append] at hw
            split at hw
            · exact hw
            · cases hw
          have hlen := insertRows_ok (okRecords p y ts) tbl tblNew hins
          rw [← he]
          exact ⟨hlen.2, fun _ => hm.symm⟩
      | error e =>
          rw [hw] at h
          injection h with hm hq
          simp at hq
  · intro p ts coll
    unfold fetch_to_mongodb
    rw [foldl_mongoStep]
    simp

/-- Witness for the amended C9: a one-ticker relational run against the
full schema persists one row and reports "saved 1", and the concrete
MongoDB run's final message reports the requested count. -/
theorem c9_report_amended_witness :
    (({ cols := resultsDfCols, rows := [mkSRecord "NVDA" 2025 finEx] } : SqliteTable).rows.length
        = tblW.rows.length + (okRecords providerC9 2025 ["NVDA"]).length
      ∧ (okRecords providerC9 2025 ["NVDA"] ≠ [] →
          [Msg.successSaved 1] = failMsgs providerC9 ["NVDA"]
            ++ [Msg.successSaved (okRecords providerC9 2025 ["NVDA"]).length]))
    ∧ (fetch_to_mongodb providerC9 ["NVDA", "FAIL"] []).1
        = failMsgs providerC9 ["NVDA", "FAIL"]
          ++ [Msg.successSynced (["NVDA", "FAIL"] : List String).length] :=
  ⟨c9_report_amended.1 providerC9 2025 ["NVDA"] tblW
      { cols := resultsDfCols, rows := [mkSRecord "NVDA" 2025 finEx] }
      [Msg.successSaved 1] rfl,
   c9_report_amended.2 providerC9 ["NVDA", "FAIL"] []⟩

/-! ## C10 -/

/-- Setting the freshly appended cell rewrites only that cell. -/
theorem set_append_length {α : Type} :
    ∀ (h : List α) (x v : α), (h ++ [x]).set h.length v = h ++ [v] := by
  intro h
  induction h with
  | nil => intro x v; rfl
  | cons a h ih => intro x v; simp [List.set, ih]

/-- **C10**.  `calculate_financial_ratios` does not mutate its input
frame: run on a heap cell `i`, it allocates a fresh cell for `df.copy()`,
performs the four column assignments on that fresh cell, and returns a
reference to it — afterwards cell `i` still holds exactly its original
columns and values, and the returned cell holds the augmented table. -/
theorem c10_input_not_mutated (h : List PDF) (i : ℕ) (hi : i < h.length) :
    (calculate_financial_ratios_heap h i).1.getD i (.raw []) = h.getD i (.raw [])
    ∧ (calculate_financial_ratios_heap h i).2 = h.length
    ∧ (calculate_financial_ratios_heap h i).1.getD
        (calculate_financial_ratios_heap h i).2 (.raw [])
      = .aug (calculate_financial_ratios ((h.getD i (.raw [])).baseRows)) := by
  have hx : ∀ v : PDF, (h ++ [v]).getD h.length (PDF.raw [])
      = v := by
    intro v
    rw [List.getD_append_right _ _ _ _ (le_refl h.length), Nat.sub_self]
    rfl
  have key : calculate_financial_ratios_heap h i
      = (h ++ [PDF.aug (calculate_financial_ratios
            ((h.getD i (PDF.raw [])).baseRows))],
         h.length) := by
    simp only [calculate_financial_ratios_heap]
    rw [set_append_length, hx]
  rw [key]
  exact ⟨List.getD_append _ _ _ _ hi, rfl, hx _⟩

/-- Witness for C10 on a one-cell heap holding one row. -/
theorem c10_input_not_mutated_witness :
    (0 : ℕ) < ([PDF.raw [rC5b]] : List PDF).length
    ∧ (calculate_financial_ratios_heap [PDF.raw [rC5b]] 0).1.getD 0 (.raw [])
        = PDF.raw [rC5b]
    ∧ (calculate_financial_ratios_heap [PDF.raw [rC5b]] 0).1.getD
        (calculate_financial_ratios_heap [PDF.raw [rC5b]] 0).2 (.raw [])
      = .aug (calculate_financial_ratios [rC5b]) :=
  ⟨by decide,
   (c10_input_not_mutated [PDF.raw [rC5b]] 0 (by decide)).1,
   (c10_input_not_mutated [PDF.raw [rC5b]] 0 (by decide)).2.2⟩

end FinCore
